import Mathlib

/-!
Verification of the decision-and-execution cycle of the Bitcoin auto-trading
bot (`autotrade.py`), shallowly embedded in Lean 4.

Modelling conventions:
* Python floats are modelled as rationals (`ℚ`); `round(x, 2)` is modelled by
  `pyRound2` (round half to even on the second decimal), `math.floor` by
  `Int.floor`.
* The body of the `while True:` loop, from the point where the model response
  has been parsed (or failed to parse) onward, is the pure function
  `cycleBody`.  Its argument is the parse outcome, the free USDT balance and
  the ticker price fetched at the top of the iteration.
* Side effects are made explicit: the `ai_analysis` rows appended in the
  iteration (`records`), the `trades` rows appended (`trades`), and the
  exchange calls issued (`orders`), in submission order.  `raised = true`
  means the iteration aborts with an uncaught exception (e.g. a Python
  `ZeroDivisionError`); such an exception is caught by the loop's top-level
  handler, which logs it, sleeps and continues.
* Timestamps are opaque wall-clock strings and are omitted from the record
  types; no claim mentions them.
-/

/-- Python `round(x, 2)` idealised over ℚ: round `x * 100` half to even. -/
def roundHalfEven (x : ℚ) : ℤ :=
  if x - Int.floor x < 1/2 then Int.floor x
  else if x - Int.floor x > 1/2 then Int.floor x + 1
  else if Int.floor x % 2 = 0 then Int.floor x else Int.floor x + 1

def pyRound2 (x : ℚ) : ℚ := (roundHalfEven (x * 100) : ℚ) / 100

/-- `math.floor(x * 1000) / 1000`: truncation of a quantity to 3 decimals
(line 614 of `autotrade.py`). -/
def ratFloor3 (x : ℚ) : ℚ := (Int.floor (x * 1000) : ℚ) / 1000

/-- The numeric fields extracted from a successfully parsed model response
(lines 508-513): `direction` has been upper-cased and defaulted to
`"NO_POSITION"`, the numbers have been converted by `float(...)` /
`int(...)`. -/
structure Decision where
  direction : String
  fraction : ℚ
  leverage : ℤ
  slPct : ℚ
  tpPct : ℚ
  reasoning : String
deriving DecidableEq

/-- Outcome of the JSON-parsing and field-extraction step (lines 499-531):
`ok` is a fully parsed decision; `jsonError` is a `json.JSONDecodeError`,
the only exception the parse handler at line 515 catches; `fieldError` is a
response that decodes as JSON but whose field conversions (lines 508-513)
raise — e.g. a null numeric field reaching `float(None)` gives `TypeError`,
a non-dict JSON value gives `AttributeError` — an exception no handler
inside the iteration catches. -/
inductive ParseResult where
  | ok (d : Decision)
  | jsonError (msg : String)
  | fieldError (msg : String)
deriving DecidableEq

/-- One row of the `trades` table as inserted by `save_trade_to_db`. -/
structure Trade where
  direction : String
  entry_price : ℚ
  position_size_usdt : ℚ
  btc_amount : ℚ
  leverage : ℤ
  stop_loss_price : ℚ
  stop_loss_percentage : ℚ
  take_profit_price : ℚ
  take_profit_percentage : ℚ
  risk_reward_ratio : ℚ
  available_balance : ℚ
  conviction_level : ℚ
  reasoning : String
  status : String
deriving DecidableEq

/-- One row of the `ai_analysis` table as inserted by
`save_ai_analysis_to_db`; absent dictionary keys become `none`. -/
structure AnalysisRecord where
  current_price : ℚ
  available_balance : ℚ
  direction : String
  position_size_fraction : Option ℚ
  recommended_leverage : Option ℤ
  stop_loss_percentage : Option ℚ
  take_profit_percentage : Option ℚ
  reasoning : String
  action_taken : String
  market_condition : String
deriving DecidableEq

/-- An exchange call issued during the iteration, in submission order. -/
inductive Order where
  | setLeverage (lev : ℤ)
  | marketBuy (qty : ℚ)
  | marketSell (qty : ℚ)
  | stopMarket (side : String) (qty : ℚ) (stopPrice : ℚ)
  | takeProfitMarket (side : String) (qty : ℚ) (stopPrice : ℚ)
deriving DecidableEq

/-- The observable effects of one iteration of the loop body from the parse
step onward. -/
structure CycleResult where
  records : List AnalysisRecord
  trades : List Trade
  orders : List Order
  raised : Bool
deriving DecidableEq

/-- Clamping of `position_size_fraction` into [0.1, 1.0]
(lines 570-573). -/
def clampFraction (f : ℚ) : ℚ :=
  if f < 1/10 then 1/10 else if f > 1 then 1 else f

/-- Clamping of `leverage` into [1, 20] (lines 576-579). -/
def clampLeverage (l : ℤ) : ℤ :=
  if l < 1 then 1 else if l > 20 then 20 else l

/-- The `ai_analysis` row saved on a JSON parse failure (lines 520-527). -/
def parseErrorRecord (msg : String) (b p : ℚ) : AnalysisRecord :=
  { current_price := p
    available_balance := b
    direction := "ERROR"
    position_size_fraction := none
    recommended_leverage := none
    stop_loss_percentage := none
    take_profit_percentage := none
    reasoning := "JSON Parse Error: " ++ msg
    action_taken := "SKIPPED"
    market_condition := "" }

/-- The `ai_analysis` row saved on a `NO_POSITION` / non-positive-fraction
verdict (lines 551-563); the raw, unclamped fraction and leverage are
stored. -/
def noTradeRecord (d : Decision) (b p : ℚ) : AnalysisRecord :=
  { current_price := p
    available_balance := b
    direction := d.direction
    position_size_fraction := some d.fraction
    recommended_leverage := some d.leverage
    stop_loss_percentage := some d.slPct
    take_profit_percentage := some d.tpPct
    reasoning := d.reasoning
    action_taken := "NO_TRADE"
    market_condition := "Learning from past" }

/-- The `ai_analysis` row saved when the position size is below the $100
minimum (lines 589-601); the fraction and leverage variables have been
reassigned to their clamped values by this point. -/
def belowMinimumRecord (d : Decision) (b p : ℚ) : AnalysisRecord :=
  { current_price := p
    available_balance := b
    direction := d.direction
    position_size_fraction := some (clampFraction d.fraction)
    recommended_leverage := some (clampLeverage d.leverage)
    stop_loss_percentage := some d.slPct
    take_profit_percentage := some d.tpPct
    reasoning := d.reasoning
    action_taken := "BELOW_MINIMUM"
    market_condition := "Position too small" }

/-- The `ai_analysis` row saved after a successful entry
(lines 670-682 and 725-737). -/
def tradeExecutedRecord (d : Decision) (b p : ℚ) : AnalysisRecord :=
  { current_price := p
    available_balance := b
    direction := d.direction
    position_size_fraction := some (clampFraction d.fraction)
    recommended_leverage := some (clampLeverage d.leverage)
    stop_loss_percentage := some d.slPct
    take_profit_percentage := some d.tpPct
    reasoning := d.reasoning
    action_taken := "TRADE_EXECUTED"
    market_condition := "Learned confidence" }

/-- The `LONG` branch (lines 629-682): market buy, then a stop-market and a
take-profit-market exit order, both on the sell side; the
`tp_percentage / sl_percentage` evaluation in the summary print (line 647)
raises `ZeroDivisionError` when `sl_percentage = 0`, after the three orders
have been submitted but before either database row is written. -/
def longBranch (d : Decision) (size b p btc : ℚ) : CycleResult :=
  let lev := clampLeverage d.leverage
  let sl_price := pyRound2 (p * (1 - d.slPct))
  let tp_price := pyRound2 (p * (1 + d.tpPct))
  let orders := [Order.setLeverage lev, Order.marketBuy btc,
                 Order.stopMarket "sell" btc sl_price,
                 Order.takeProfitMarket "sell" btc tp_price]
  if d.slPct = 0 then
    { records := [], trades := [], orders := orders, raised := true }
  else
    { records := [tradeExecutedRecord d b p]
      trades := [{ direction := "LONG"
                   entry_price := p
                   position_size_usdt := size
                   btc_amount := btc
                   leverage := lev
                   stop_loss_price := sl_price
                   stop_loss_percentage := d.slPct
                   take_profit_price := tp_price
                   take_profit_percentage := d.tpPct
                   risk_reward_ratio := d.tpPct / d.slPct
                   available_balance := b
                   conviction_level := clampFraction d.fraction
                   reasoning := d.reasoning
                   status := "OPEN" }]
      orders := orders
      raised := false }

/-- The `SHORT` branch (lines 684-737): market sell, exits on the buy side,
stop above and take-profit below the entry. -/
def shortBranch (d : Decision) (size b p btc : ℚ) : CycleResult :=
  let lev := clampLeverage d.leverage
  let sl_price := pyRound2 (p * (1 + d.slPct))
  let tp_price := pyRound2 (p * (1 - d.tpPct))
  let orders := [Order.setLeverage lev, Order.marketSell btc,
                 Order.stopMarket "buy" btc sl_price,
                 Order.takeProfitMarket "buy" btc tp_price]
  if d.slPct = 0 then
    { records := [], trades := [], orders := orders, raised := true }
  else
    { records := [tradeExecutedRecord d b p]
      trades := [{ direction := "SHORT"
                   entry_price := p
                   position_size_usdt := size
                   btc_amount := btc
                   leverage := lev
                   stop_loss_price := sl_price
                   stop_loss_percentage := d.slPct
                   take_profit_price := tp_price
                   take_profit_percentage := d.tpPct
                   risk_reward_ratio := d.tpPct / d.slPct
                   available_balance := b
                   conviction_level := clampFraction d.fraction
                   reasoning := d.reasoning
                   status := "OPEN" }]
      orders := orders
      raised := false }

/-- Order sizing and placement (lines 607-744), reached once the minimum
notional check has passed: the over-balance reduction (lines 608-611), the
3-decimal truncation of the BTC quantity (line 614, raising
`ZeroDivisionError` if the price is zero, before any exchange call), the
leverage setting (line 625) and the direction branches.  A direction that is
neither `LONG` nor `SHORT` falls through both branches: leverage is set but
no order is placed and no row is written. -/
def placeOrdersAndPersist (d : Decision) (b p : ℚ) : CycleResult :=
  let size0 := b * clampFraction d.fraction
  let size := if size0 > b then b * (95/100) else size0
  if p = 0 then
    { records := [], trades := [], orders := [], raised := true }
  else
    let btc := ratFloor3 (size / p)
    if d.direction = "LONG" then longBranch d size b p btc
    else if d.direction = "SHORT" then shortBranch d size b p btc
    else
      { records := [], trades := [],
        orders := [Order.setLeverage (clampLeverage d.leverage)],
        raised := false }

/-- One iteration of the loop body from the parse step onward
(lines 499-744): parse-failure logging, the `NO_POSITION` / non-positive
fraction no-trade verdict (line 547), fraction and leverage clamping, the
$100 minimum notional check (line 585), then sizing and placement. -/
def cycleBody (pr : ParseResult) (b p : ℚ) : CycleResult :=
  match pr with
  | ParseResult.jsonError msg =>
      { records := [parseErrorRecord msg b p], trades := [], orders := [],
        raised := false }
  | ParseResult.fieldError _ =>
      { records := [], trades := [], orders := [], raised := true }
  | ParseResult.ok d =>
      if d.direction = "NO_POSITION" ∨ d.fraction ≤ 0 then
        { records := [noTradeRecord d b p], trades := [], orders := [],
          raised := false }
      else if b * clampFraction d.fraction < 100 then
        { records := [belowMinimumRecord d b p], trades := [], orders := [],
          raised := false }
      else
        placeOrdersAndPersist d b p

/-- `get_available_balance` (lines 250-258): the `fetch_balance` call is
wrapped in `try/except`; on any exception the function logs and returns 0
instead of propagating. -/
def get_available_balance (fetch : Except String ℚ) : ℚ :=
  match fetch with
  | Except.ok free => free
  | Except.error _ => 0

/-- The top of the loop iteration (lines 338-339) followed by the body: the
ticker fetch is not guarded, so its failure propagates out of the iteration
(to the top-level handler at line 748); the balance fetch is routed through
`get_available_balance`. -/
def cycleWithFetches (priceFetch balanceFetch : Except String ℚ)
    (pr : ParseResult) : Except String CycleResult :=
  match priceFetch with
  | Except.error e => Except.error e
  | Except.ok p => Except.ok (cycleBody pr (get_available_balance balanceFetch) p)

/-! ## Basic properties of the clamping steps -/

theorem clampFraction_lb (f : ℚ) : 1/10 ≤ clampFraction f := by
  unfold clampFraction
  split_ifs <;> linarith

theorem clampFraction_le_one (f : ℚ) : clampFraction f ≤ 1 := by
  unfold clampFraction
  split_ifs <;> linarith

theorem clampFraction_pos (f : ℚ) : 0 < clampFraction f :=
  lt_of_lt_of_le (by norm_num) (clampFraction_lb f)

theorem clampFraction_mono {f g : ℚ} (h : f ≤ g) :
    clampFraction f ≤ clampFraction g := by
  unfold clampFraction
  split_ifs <;> linarith

theorem clampFraction_idem (f : ℚ) :
    clampFraction (clampFraction f) = clampFraction f := by
  unfold clampFraction
  split_ifs <;> first | rfl | linarith

theorem balance_pos_of_min {b f : ℚ} (hmin : 100 ≤ b * clampFraction f) :
    0 < b := by
  by_contra hb
  push_neg at hb
  nlinarith [clampFraction_pos f, clampFraction_le_one f]

theorem size_le_balance {b f : ℚ} (hmin : 100 ≤ b * clampFraction f) :
    b * clampFraction f ≤ b := by
  have hb := balance_pos_of_min hmin
  calc b * clampFraction f ≤ b * 1 :=
        mul_le_mul_of_nonneg_left (clampFraction_le_one f) hb.le
    _ = b := mul_one b

/-! ## Branch-selection lemmas for the cycle body -/

theorem cycleBody_ok_noTrade (d : Decision) (b p : ℚ)
    (h : d.direction = "NO_POSITION" ∨ d.fraction ≤ 0) :
    cycleBody (ParseResult.ok d) b p =
      { records := [noTradeRecord d b p], trades := [], orders := [],
        raised := false } := by
  simp only [cycleBody]
  rw [if_pos h]

theorem cycleBody_ok_belowMin (d : Decision) (b p : ℚ)
    (hno : ¬ (d.direction = "NO_POSITION" ∨ d.fraction ≤ 0))
    (hlt : b * clampFraction d.fraction < 100) :
    cycleBody (ParseResult.ok d) b p =
      { records := [belowMinimumRecord d b p], trades := [], orders := [],
        raised := false } := by
  simp only [cycleBody]
  rw [if_neg hno, if_pos hlt]

theorem cycleBody_ok_proceed (d : Decision) (b p : ℚ)
    (hno : ¬ (d.direction = "NO_POSITION" ∨ d.fraction ≤ 0))
    (hge : ¬ b * clampFraction d.fraction < 100) :
    cycleBody (ParseResult.ok d) b p = placeOrdersAndPersist d b p := by
  simp only [cycleBody]
  rw [if_neg hno, if_neg hge]

theorem placeOrders_long (d : Decision) (b p : ℚ) (hp : p ≠ 0)
    (hle : ¬ b * clampFraction d.fraction > b) (hd : d.direction = "LONG") :
    placeOrdersAndPersist d b p =
      longBranch d (b * clampFraction d.fraction) b p
        (ratFloor3 (b * clampFraction d.fraction / p)) := by
  simp only [placeOrdersAndPersist]
  rw [if_neg hle, if_neg hp, if_pos hd]

theorem placeOrders_short (d : Decision) (b p : ℚ) (hp : p ≠ 0)
    (hle : ¬ b * clampFraction d.fraction > b) (hdS : d.direction = "SHORT") :
    placeOrdersAndPersist d b p =
      shortBranch d (b * clampFraction d.fraction) b p
        (ratFloor3 (b * clampFraction d.fraction / p)) := by
  have hdL : ¬ d.direction = "LONG" := by
    rw [hdS]; decide
  simp only [placeOrdersAndPersist]
  rw [if_neg hle, if_neg hp, if_neg hdL, if_pos hdS]

/-! ## Claim theorems -/

/-- C1: for every decision that reaches sizing (direction `LONG` or `SHORT`,
fraction > 0), with `position_size_quote = available_balance * clamped
fraction`: if it is below 100 the iteration appends exactly the
`BELOW_MINIMUM` analysis record, no trade row and no exchange call; if it is
exactly 100 the iteration proceeds to order sizing and placement; and
balance 1000 with fraction 0.05 clamps to 0.1, giving a position size of
exactly 100. -/
theorem c1_minimum_notional (d : Decision) (b p : ℚ)
    (hdir : d.direction = "LONG" ∨ d.direction = "SHORT")
    (hf : 0 < d.fraction) :
    (b * clampFraction d.fraction < 100 →
      cycleBody (ParseResult.ok d) b p =
        { records := [belowMinimumRecord d b p], trades := [], orders := [],
          raised := false }) ∧
    (b * clampFraction d.fraction = 100 →
      cycleBody (ParseResult.ok d) b p = placeOrdersAndPersist d b p) ∧
    clampFraction (5/100) = 1/10 ∧
    (1000 : ℚ) * clampFraction (5/100) = 100 := by
  have hno : ¬ (d.direction = "NO_POSITION" ∨ d.fraction ≤ 0) := by
    rintro (h | h)
    · rcases hdir with hd | hd <;> rw [hd] at h <;> exact absurd h (by decide)
    · exact absurd hf (not_lt.mpr h)
  refine ⟨fun hlt => cycleBody_ok_belowMin d b p hno hlt,
          fun heq => cycleBody_ok_proceed d b p hno ?_,
          by with_unfolding_all decide, by with_unfolding_all decide⟩
  rw [heq]
  exact lt_irrefl 100

/-- C2: every executed trade stores, for a `LONG` entry at price `p`,
`sl_price = round(p * (1 - sl_pct), 2)` and
`tp_price = round(p * (1 + tp_pct), 2)`, and for a `SHORT` entry
`sl_price = round(p * (1 + sl_pct), 2)` and
`tp_price = round(p * (1 - tp_pct), 2)`, together with
`risk_reward_ratio = tp_pct / sl_pct`. -/
theorem c2_exit_prices (d : Decision) (b p : ℚ)
    (hdir : d.direction = "LONG" ∨ d.direction = "SHORT")
    (hf : 0 < d.fraction) (hmin : 100 ≤ b * clampFraction d.fraction)
    (hp : p ≠ 0) (hsl : d.slPct ≠ 0) :
    (cycleBody (ParseResult.ok d) b p).trades.map
        (fun t => (t.entry_price, t.stop_loss_price, t.take_profit_price,
                   t.risk_reward_ratio)) =
      [if d.direction = "LONG" then
        (p, pyRound2 (p * (1 - d.slPct)), pyRound2 (p * (1 + d.tpPct)),
         d.tpPct / d.slPct)
       else
        (p, pyRound2 (p * (1 + d.slPct)), pyRound2 (p * (1 - d.tpPct)),
         d.tpPct / d.slPct)] := by
  have hno : ¬ (d.direction = "NO_POSITION" ∨ d.fraction ≤ 0) := by
    rintro (h | h)
    · rcases hdir with hd | hd <;> rw [hd] at h <;> exact absurd h (by decide)
    · exact absurd hf (not_lt.mpr h)
  have hle : ¬ b * clampFraction d.fraction > b := not_lt.mpr (size_le_balance hmin)
  rw [cycleBody_ok_proceed d b p hno (not_lt.mpr hmin)]
  rcases hdir with hd | hd
  · rw [placeOrders_long d b p hp hle hd]
    simp only [longBranch]
    rw [if_neg hsl, if_pos hd]
    rfl
  · have hdL : ¬ d.direction = "LONG" := by rw [hd]; decide
    rw [placeOrders_short d b p hp hle hd]
    simp only [shortBranch]
    rw [if_neg hsl, if_neg hdL]
    rfl

/-- C3 counterexample: a JSON-valid but schema-malformed oracle response —
a null numeric field raising `TypeError` inside the field conversions at
line 509 — escapes the `except json.JSONDecodeError` handler: the iteration
appends no analysis record at all and the exception propagates past the
parse handler, refuting the claim that every malformed response yields one
`SKIPPED` record without raising. -/
theorem c3_counterexample :
    (cycleBody
        (ParseResult.fieldError "float() argument must be a string or a real number, not NoneType")
        1000 50000).records = [] ∧
    (cycleBody
        (ParseResult.fieldError "float() argument must be a string or a real number, not NoneType")
        1000 50000).raised = true :=
  ⟨rfl, rfl⟩

/-- C3 (amended): a response that fails JSON decoding yields exactly one
analysis record, tagged `SKIPPED` with direction `ERROR`, no trade row, no
exchange call, and no exception escaping the parse handler (the oracle is
called once per iteration, so the call is not retried within the cycle);
but a response that decodes as JSON and is schema-malformed aborts the
field extraction with an uncaught exception, appending no record and
raising past the parse handler to the loop's top-level handler. -/
theorem c3_parse_error_skipped (msg : String) (b p : ℚ) :
    (cycleBody (ParseResult.jsonError msg) b p =
      { records := [parseErrorRecord msg b p], trades := [], orders := [],
        raised := false } ∧
     (parseErrorRecord msg b p).action_taken = "SKIPPED" ∧
     (parseErrorRecord msg b p).direction = "ERROR" ∧
     (cycleBody (ParseResult.jsonError msg) b p).raised = false) ∧
    cycleBody (ParseResult.fieldError msg) b p =
      { records := [], trades := [], orders := [], raised := true } :=
  ⟨⟨rfl, rfl, rfl, rfl⟩, rfl⟩

/-- A parsed decision used as concrete input in several witnesses: direction
`LONG`, full fraction, leverage 5, 1% stop loss, 2% take profit. -/
def dEx : Decision :=
  { direction := "LONG", fraction := 1, leverage := 5, slPct := 1/100,
    tpPct := 2/100, reasoning := "r" }

/-- A parsed `LONG` decision with the fraction 0.05 from the boundary example. -/
def dSmallFrac : Decision :=
  { direction := "LONG", fraction := 1/20, leverage := 5, slPct := 1/100,
    tpPct := 2/100, reasoning := "w" }

theorem c1_minimum_notional_witness :
    ((0 : ℚ) < dSmallFrac.fraction ∧
     (1000 : ℚ) * clampFraction dSmallFrac.fraction = 100 ∧
     (900 : ℚ) * clampFraction dSmallFrac.fraction < 100) ∧
    cycleBody (ParseResult.ok dSmallFrac) 1000 50000 =
      placeOrdersAndPersist dSmallFrac 1000 50000 ∧
    cycleBody (ParseResult.ok dSmallFrac) 900 50000 =
      { records := [belowMinimumRecord dSmallFrac 900 50000], trades := [],
        orders := [], raised := false } :=
  ⟨by with_unfolding_all decide,
   (c1_minimum_notional dSmallFrac 1000 50000 (Or.inl rfl)
      (by with_unfolding_all decide)).2.1 (by with_unfolding_all decide),
   (c1_minimum_notional dSmallFrac 900 50000 (Or.inl rfl)
      (by with_unfolding_all decide)).1 (by with_unfolding_all decide)⟩

theorem c2_exit_prices_witness :
    ((0 : ℚ) < dEx.fraction ∧ (100 : ℚ) ≤ 1000 * clampFraction dEx.fraction ∧
     (50000 : ℚ) ≠ 0 ∧ dEx.slPct ≠ 0) ∧
    (cycleBody (ParseResult.ok dEx) 1000 50000).trades.map
        (fun t => (t.entry_price, t.stop_loss_price, t.take_profit_price,
                   t.risk_reward_ratio)) =
      [if dEx.direction = "LONG" then
        ((50000 : ℚ), pyRound2 (50000 * (1 - dEx.slPct)),
         pyRound2 (50000 * (1 + dEx.tpPct)), dEx.tpPct / dEx.slPct)
       else
        ((50000 : ℚ), pyRound2 (50000 * (1 + dEx.slPct)),
         pyRound2 (50000 * (1 - dEx.tpPct)), dEx.tpPct / dEx.slPct)] ∧
    (cycleBody (ParseResult.ok dEx) 1000 50000).trades.map
        Trade.stop_loss_price = [49500] ∧
    (cycleBody (ParseResult.ok dEx) 1000 50000).trades.map
        Trade.take_profit_price = [51000] ∧
    (cycleBody (ParseResult.ok dEx) 1000 50000).trades.map
        Trade.risk_reward_ratio = [2] :=
  ⟨by with_unfolding_all decide,
   c2_exit_prices dEx 1000 50000 (Or.inl rfl) (by with_unfolding_all decide)
     (by with_unfolding_all decide) (by with_unfolding_all decide)
     (by with_unfolding_all decide),
   by
     have hs : ¬ ("LONG" : String) = "NO_POSITION" := by decide
     norm_num [cycleBody, placeOrdersAndPersist, longBranch, dEx,
       clampFraction, clampLeverage, ratFloor3, pyRound2, roundHalfEven,
       tradeExecutedRecord, hs],
   by
     have hs : ¬ ("LONG" : String) = "NO_POSITION" := by decide
     norm_num [cycleBody, placeOrdersAndPersist, longBranch, dEx,
       clampFraction, clampLeverage, ratFloor3, pyRound2, roundHalfEven,
       tradeExecutedRecord, hs],
   by
     have hs : ¬ ("LONG" : String) = "NO_POSITION" := by decide
     norm_num [cycleBody, placeOrdersAndPersist, longBranch, dEx,
       clampFraction, clampLeverage, ratFloor3, pyRound2, roundHalfEven,
       tradeExecutedRecord, hs]⟩

/-- A parsed decision whose direction is neither `LONG`, `SHORT` nor
`NO_POSITION`; with a full fraction and ample balance it passes every check
yet falls through both placement branches. -/
def dHold : Decision :=
  { direction := "HOLD", fraction := 1, leverage := 1, slPct := 1/100,
    tpPct := 2/100, reasoning := "hold" }

/-- C4 counterexample: a cycle whose oracle response parses to direction
`"HOLD"` with fraction 1, balance 1000 and price 50000 completes its
analysis attempt but appends no analysis record at all — the claim that
exactly one record is appended regardless of the direction value is false. -/
theorem c4_counterexample :
    ¬ ((cycleBody (ParseResult.ok dHold) 1000 50000).records.length = 1) := by
  with_unfolding_all decide

/-- C4 (amended): exactly one analysis record is appended per completed
analysis attempt provided the attempt does not abort on an uncaught
exception (a schema-malformed response aborting field extraction, a zero
price, or a zero stop-loss percentage on an executed trade) and, when the
trade proceeds past the minimum-notional check, the parsed direction is
`LONG` or `SHORT` (an unrecognized direction falls through both branches
and appends nothing, as does any aborting iteration); records are only ever
appended, never updated. -/
theorem c4_one_record_per_attempt (pr : ParseResult) (b p : ℚ)
    (h : match pr with
         | ParseResult.jsonError _ => True
         | ParseResult.fieldError _ => False
         | ParseResult.ok d =>
             d.direction = "NO_POSITION" ∨ d.fraction ≤ 0 ∨
             b * clampFraction d.fraction < 100 ∨
             ((d.direction = "LONG" ∨ d.direction = "SHORT") ∧
              d.slPct ≠ 0 ∧ p ≠ 0)) :
    (cycleBody pr b p).records.length = 1 := by
  cases pr with
  | jsonError msg => rfl
  | fieldError msg => exact absurd h not_false
  | ok d =>
    have h' : d.direction = "NO_POSITION" ∨ d.fraction ≤ 0 ∨
        b * clampFraction d.fraction < 100 ∨
        ((d.direction = "LONG" ∨ d.direction = "SHORT") ∧
         d.slPct ≠ 0 ∧ p ≠ 0) := h
    by_cases hno : d.direction = "NO_POSITION" ∨ d.fraction ≤ 0
    · rw [cycleBody_ok_noTrade d b p hno]
      rfl
    · by_cases hlt : b * clampFraction d.fraction < 100
      · rw [cycleBody_ok_belowMin d b p hno hlt]
        rfl
      · rw [cycleBody_ok_proceed d b p hno hlt]
        have h4 : (d.direction = "LONG" ∨ d.direction = "SHORT") ∧
            d.slPct ≠ 0 ∧ p ≠ 0 := by
          rcases h' with h1 | h1 | h1 | h1
          · exact absurd (Or.inl h1) hno
          · exact absurd (Or.inr h1) hno
          · exact absurd h1 hlt
          · exact h1
        obtain ⟨hdir, hsl, hp⟩ := h4
        have hle : ¬ b * clampFraction d.fraction > b :=
          not_lt.mpr (size_le_balance (not_lt.mp hlt))
        rcases hdir with hd | hd
        · rw [placeOrders_long d b p hp hle hd]
          simp only [longBranch]
          rw [if_neg hsl]
          rfl
        · rw [placeOrders_short d b p hp hle hd]
          simp only [shortBranch]
          rw [if_neg hsl]
          rfl

theorem c4_one_record_witness :
    (dEx.direction = "LONG" ∧ dEx.slPct ≠ 0 ∧ (50000 : ℚ) ≠ 0) ∧
    (cycleBody (ParseResult.ok dEx) 1000 50000).records.length = 1 ∧
    (cycleBody (ParseResult.jsonError "not json") 1000 50000).records.length = 1 :=
  ⟨by with_unfolding_all decide,
   c4_one_record_per_attempt (ParseResult.ok dEx) 1000 50000
     (Or.inr (Or.inr (Or.inr ⟨Or.inl rfl, by with_unfolding_all decide,
        by with_unfolding_all decide⟩))),
   c4_one_record_per_attempt (ParseResult.jsonError "not json") 1000 50000
     True.intro⟩

/-- A parsed `LONG` decision with a half fraction, used as the concrete
input showing the cycle continues after a failed balance fetch. -/
def dC5 : Decision :=
  { direction := "LONG", fraction := 1/2, leverage := 3, slPct := 1/100,
    tpPct := 2/100, reasoning := "c5" }

/-- C5 counterexample: a failed balance fetch does NOT propagate —
`get_available_balance` swallows the exception and returns the default 0,
and the iteration continues its analysis with that substituted balance. -/
theorem c5_counterexample :
    get_available_balance (Except.error "network error") = 0 ∧
    cycleWithFetches (Except.ok 50000) (Except.error "network error")
        (ParseResult.ok dC5) =
      Except.ok (cycleBody (ParseResult.ok dC5) 0 50000) :=
  ⟨rfl, rfl⟩

/-- C5 (amended): a failed price fetch propagates to the Execution Cycle's
top-level handler, but a failed balance fetch is caught inside
`get_available_balance` and converted to a default balance of 0, with which
the cycle continues its analysis. -/
theorem c5_fetch_failure_paths (e : String) (bf : Except String ℚ)
    (pr : ParseResult) (p : ℚ) :
    cycleWithFetches (Except.error e) bf pr = Except.error e ∧
    cycleWithFetches (Except.ok p) (Except.error e) pr =
      Except.ok (cycleBody pr 0 p) :=
  ⟨rfl, rfl⟩

/-- C6: every trade row persisted by an iteration stores
`risk_reward_ratio = take_profit_percentage / stop_loss_percentage`, the
quotient of its own stored percentages, computed at entry time; the ledger
is append-only in the embedding, so no later operation changes it. -/
theorem c6_risk_reward_invariant (pr : ParseResult) (b p : ℚ) (t : Trade)
    (ht : t ∈ (cycleBody pr b p).trades) :
    t.risk_reward_ratio = t.take_profit_percentage / t.stop_loss_percentage := by
  cases pr with
  | jsonError msg => simp [cycleBody] at ht
  | fieldError msg => simp [cycleBody] at ht
  | ok d =>
    by_cases hno : d.direction = "NO_POSITION" ∨ d.fraction ≤ 0
    · rw [cycleBody_ok_noTrade d b p hno] at ht
      simp at ht
    · by_cases hlt : b * clampFraction d.fraction < 100
      · rw [cycleBody_ok_belowMin d b p hno hlt] at ht
        simp at ht
      · rw [cycleBody_ok_proceed d b p hno hlt] at ht
        have hle : ¬ b * clampFraction d.fraction > b :=
          not_lt.mpr (size_le_balance (not_lt.mp hlt))
        by_cases hp : p = 0
        · simp [placeOrdersAndPersist, hp] at ht
        · by_cases hdL : d.direction = "LONG"
          · rw [placeOrders_long d b p hp hle hdL] at ht
            by_cases hsl : d.slPct = 0
            · simp [longBranch, hsl] at ht
            · simp [longBranch, hsl] at ht
              subst ht
              rfl
          · by_cases hdS : d.direction = "SHORT"
            · rw [placeOrders_short d b p hp hle hdS] at ht
              by_cases hsl : d.slPct = 0
              · simp [shortBranch, hsl] at ht
              · simp [shortBranch, hsl] at ht
                subst ht
                rfl
            · simp [placeOrdersAndPersist, hp, hdL, hdS] at ht

/-- The trade row produced by `dEx` at balance 1000 and price 50000. -/
def tEx : Trade :=
  { direction := "LONG", entry_price := 50000, position_size_usdt := 1000,
    btc_amount := 1/50, leverage := 5, stop_loss_price := 49500,
    stop_loss_percentage := 1/100, take_profit_price := 51000,
    take_profit_percentage := 2/100, risk_reward_ratio := 2,
    available_balance := 1000, conviction_level := 1, reasoning := "r",
    status := "OPEN" }

theorem c6_risk_reward_witness :
    tEx ∈ (cycleBody (ParseResult.ok dEx) 1000 50000).trades ∧
    tEx.risk_reward_ratio = tEx.take_profit_percentage / tEx.stop_loss_percentage :=
  ⟨by
     have hs : ¬ ("LONG" : String) = "NO_POSITION" := by decide
     norm_num [cycleBody, placeOrdersAndPersist, longBranch, dEx, tEx,
       clampFraction, clampLeverage, ratFloor3, pyRound2, roundHalfEven, hs],
   c6_risk_reward_invariant (ParseResult.ok dEx) 1000 50000 tEx
     (by
        have hs : ¬ ("LONG" : String) = "NO_POSITION" := by decide
        norm_num [cycleBody, placeOrdersAndPersist, longBranch, dEx, tEx,
          clampFraction, clampLeverage, ratFloor3, pyRound2, roundHalfEven, hs])⟩

/-- C7: the position-size fraction clamp maps every fraction into
[0.1, 1.0], is monotonic, and is idempotent. -/
theorem c7_clamp_properties (f g : ℚ) (hfg : f ≤ g) :
    (1/10 ≤ clampFraction f ∧ clampFraction f ≤ 1) ∧
    clampFraction f ≤ clampFraction g ∧
    clampFraction (clampFraction f) = clampFraction f :=
  ⟨⟨clampFraction_lb f, clampFraction_le_one f⟩, clampFraction_mono hfg,
   clampFraction_idem f⟩

theorem c7_clamp_properties_witness :
    (1/20 : ℚ) ≤ 3 ∧
    ((1/10 ≤ clampFraction (1/20) ∧ clampFraction (1/20) ≤ 1) ∧
     clampFraction (1/20) ≤ clampFraction 3 ∧
     clampFraction (clampFraction (1/20)) = clampFraction (1/20)) :=
  ⟨by norm_num, c7_clamp_properties (1/20) 3 (by norm_num)⟩

/-- C8: every trade that reaches order sizing has base-asset quantity
`floor(position_size_quote / current_price * 1000) / 1000`, where the
position size is the balance times the clamped fraction. -/
theorem c8_base_quantity (d : Decision) (b p : ℚ)
    (hdir : d.direction = "LONG" ∨ d.direction = "SHORT")
    (hf : 0 < d.fraction) (hmin : 100 ≤ b * clampFraction d.fraction)
    (hp : p ≠ 0) (hsl : d.slPct ≠ 0) :
    (cycleBody (ParseResult.ok d) b p).trades.map Trade.btc_amount =
      [ratFloor3 (b * clampFraction d.fraction / p)] := by
  have hno : ¬ (d.direction = "NO_POSITION" ∨ d.fraction ≤ 0) := by
    rintro (h | h)
    · rcases hdir with hd | hd <;> rw [hd] at h <;> exact absurd h (by decide)
    · exact absurd hf (not_lt.mpr h)
  have hle : ¬ b * clampFraction d.fraction > b :=
    not_lt.mpr (size_le_balance hmin)
  rw [cycleBody_ok_proceed d b p hno (not_lt.mpr hmin)]
  rcases hdir with hd | hd
  · rw [placeOrders_long d b p hp hle hd]
    simp only [longBranch]
    rw [if_neg hsl]
    rfl
  · rw [placeOrders_short d b p hp hle hd]
    simp only [shortBranch]
    rw [if_neg hsl]
    rfl

theorem c8_base_quantity_witness :
    ((0 : ℚ) < dEx.fraction ∧ (100 : ℚ) ≤ 500 * clampFraction dEx.fraction ∧
     (50000 : ℚ) ≠ 0 ∧ dEx.slPct ≠ 0) ∧
    (cycleBody (ParseResult.ok dEx) 500 50000).trades.map Trade.btc_amount =
      [ratFloor3 (500 * clampFraction dEx.fraction / 50000)] ∧
    ratFloor3 (500 * clampFraction dEx.fraction / 50000) = 1/100 ∧
    (500 : ℚ) * clampFraction dEx.fraction = 500 :=
  ⟨by with_unfolding_all decide,
   c8_base_quantity dEx 500 50000 (Or.inl rfl) (by with_unfolding_all decide)
     (by with_unfolding_all decide) (by with_unfolding_all decide)
     (by with_unfolding_all decide),
   by norm_num [ratFloor3, clampFraction, dEx],
   by norm_num [clampFraction, dEx]⟩

/-- C9: once the fraction is clamped into [0.1, 1.0], the position size
`balance * fraction` never exceeds a non-negative balance, so the
over-balance reduction to `balance * 0.95` is unreachable and every
persisted trade stores exactly `balance * clamped fraction`. -/
theorem c9_no_overbalance (d : Decision) (b p : ℚ) (hb : 0 ≤ b) :
    b * clampFraction d.fraction ≤ b ∧
    ∀ t ∈ (cycleBody (ParseResult.ok d) b p).trades,
      t.position_size_usdt = b * clampFraction d.fraction := by
  constructor
  · calc b * clampFraction d.fraction ≤ b * 1 :=
         mul_le_mul_of_nonneg_left (clampFraction_le_one d.fraction) hb
      _ = b := mul_one b
  · intro t ht
    by_cases hno : d.direction = "NO_POSITION" ∨ d.fraction ≤ 0
    · rw [cycleBody_ok_noTrade d b p hno] at ht
      simp at ht
    · by_cases hlt : b * clampFraction d.fraction < 100
      · rw [cycleBody_ok_belowMin d b p hno hlt] at ht
        simp at ht
      · rw [cycleBody_ok_proceed d b p hno hlt] at ht
        have hle : ¬ b * clampFraction d.fraction > b :=
          not_lt.mpr (size_le_balance (not_lt.mp hlt))
        by_cases hp : p = 0
        · simp [placeOrdersAndPersist, hp] at ht
        · by_cases hdL : d.direction = "LONG"
          · rw [placeOrders_long d b p hp hle hdL] at ht
            by_cases hsl : d.slPct = 0
            · simp [longBranch, hsl] at ht
            · simp [longBranch, hsl] at ht
              subst ht
              rfl
          · by_cases hdS : d.direction = "SHORT"
            · rw [placeOrders_short d b p hp hle hdS] at ht
              by_cases hsl : d.slPct = 0
              · simp [shortBranch, hsl] at ht
              · simp [shortBranch, hsl] at ht
                subst ht
                rfl
            · simp [placeOrdersAndPersist, hp, hdL, hdS] at ht

theorem c9_no_overbalance_witness :
    (0 : ℚ) ≤ 1000 ∧
    tEx.position_size_usdt = 1000 * clampFraction dEx.fraction :=
  ⟨by norm_num,
   (c9_no_overbalance dEx 1000 50000 (by norm_num)).2 tEx
     (by
        have hs : ¬ ("LONG" : String) = "NO_POSITION" := by decide
        norm_num [cycleBody, placeOrdersAndPersist, longBranch, dEx, tEx,
          clampFraction, clampLeverage, ratFloor3, pyRound2, roundHalfEven, hs])⟩

/-- C10: with a parsed `LONG` or `SHORT` decision, a position size meeting
the minimum notional and a zero stop-loss percentage, the iteration raises
the division-by-zero only after the market order and both exit orders have
been submitted (four exchange calls, leverage setting included), persists
neither a trade row nor an analysis record, and the error is the one
absorbed by the top-level loop handler (`raised = true`). -/
theorem c10_zero_stop_loss (d : Decision) (b p : ℚ)
    (hdir : d.direction = "LONG" ∨ d.direction = "SHORT")
    (hf : 0 < d.fraction) (hmin : 100 ≤ b * clampFraction d.fraction)
    (hp : p ≠ 0) (hsl : d.slPct = 0) :
    (cycleBody (ParseResult.ok d) b p).raised = true ∧
    (cycleBody (ParseResult.ok d) b p).trades = [] ∧
    (cycleBody (ParseResult.ok d) b p).records = [] ∧
    (cycleBody (ParseResult.ok d) b p).orders =
      (if d.direction = "LONG" then
        [Order.setLeverage (clampLeverage d.leverage),
         Order.marketBuy (ratFloor3 (b * clampFraction d.fraction / p)),
         Order.stopMarket "sell" (ratFloor3 (b * clampFraction d.fraction / p))
           (pyRound2 (p * (1 - d.slPct))),
         Order.takeProfitMarket "sell"
           (ratFloor3 (b * clampFraction d.fraction / p))
           (pyRound2 (p * (1 + d.tpPct)))]
       else
        [Order.setLeverage (clampLeverage d.leverage),
         Order.marketSell (ratFloor3 (b * clampFraction d.fraction / p)),
         Order.stopMarket "buy" (ratFloor3 (b * clampFraction d.fraction / p))
           (pyRound2 (p * (1 + d.slPct))),
         Order.takeProfitMarket "buy"
           (ratFloor3 (b * clampFraction d.fraction / p))
           (pyRound2 (p * (1 - d.tpPct)))]) := by
  have hno : ¬ (d.direction = "NO_POSITION" ∨ d.fraction ≤ 0) := by
    rintro (h | h)
    · rcases hdir with hd | hd <;> rw [hd] at h <;> exact absurd h (by decide)
    · exact absurd hf (not_lt.mpr h)
  have hle : ¬ b * clampFraction d.fraction > b :=
    not_lt.mpr (size_le_balance hmin)
  rw [cycleBody_ok_proceed d b p hno (not_lt.mpr hmin)]
  rcases hdir with hd | hd
  · rw [placeOrders_long d b p hp hle hd, if_pos hd]
    simp only [longBranch]
    rw [if_pos hsl]
    exact ⟨rfl, rfl, rfl, rfl⟩
  · have hdL : ¬ d.direction = "LONG" := by rw [hd]; decide
    rw [placeOrders_short d b p hp hle hd, if_neg hdL]
    simp only [shortBranch]
    rw [if_pos hsl]
    exact ⟨rfl, rfl, rfl, rfl⟩

/-- A parsed `SHORT` decision with a zero stop-loss percentage. -/
def dShortZero : Decision :=
  { direction := "SHORT", fraction := 1, leverage := 25, slPct := 0,
    tpPct := 2/100, reasoning := "z" }

theorem c10_zero_stop_loss_witness :
    ((0 : ℚ) < dShortZero.fraction ∧
     (100 : ℚ) ≤ 1000 * clampFraction dShortZero.fraction ∧
     (50000 : ℚ) ≠ 0 ∧ dShortZero.slPct = 0) ∧
    (cycleBody (ParseResult.ok dShortZero) 1000 50000).raised = true ∧
    (cycleBody (ParseResult.ok dShortZero) 1000 50000).trades = [] ∧
    (cycleBody (ParseResult.ok dShortZero) 1000 50000).records = [] ∧
    (cycleBody (ParseResult.ok dShortZero) 1000 50000).orders.length = 4 :=
  ⟨by with_unfolding_all decide,
   (c10_zero_stop_loss dShortZero 1000 50000 (Or.inr rfl)
      (by with_unfolding_all decide) (by with_unfolding_all decide)
      (by with_unfolding_all decide) rfl).1,
   (c10_zero_stop_loss dShortZero 1000 50000 (Or.inr rfl)
      (by with_unfolding_all decide) (by with_unfolding_all decide)
      (by with_unfolding_all decide) rfl).2.1,
   (c10_zero_stop_loss dShortZero 1000 50000 (Or.inr rfl)
      (by with_unfolding_all decide) (by with_unfolding_all decide)
      (by with_unfolding_all decide) rfl).2.2.1,
   by with_unfolding_all decide⟩
